import Mathlib

/-!
Verification development for the `emotion_transformer` repository.

The repository is a notebook-derived training-orchestration module
(`02_lightning.ipynb`, exported by nbdev to `emotion_transformer.core`)
built around a PyTorch Lightning module `EmotionModel`, a CLI built with
`test_tube.HyperOptArgumentParser` (`get_args`,
`EmotionModel.add_model_specific_args`), a training entry point `main`,
and a `main.py` dispatch block.

Python dictionaries whose values are numeric scalars are embedded as
association lists `List (String × ℚ)` (insertion ordered, first match
wins on lookup, as for Python dicts).  Python numbers (ints and floats)
are embedded as rationals `ℚ`, machine integers as `Int`/`Nat`.
Fallible Python code (KeyError, NameError, TypeError) is embedded with
`Option`/`Except`.
-/

/-- Lookup in an association list embedding of a Python dict:
`d[key]` returns the value of the first entry whose key matches, or
`none` (KeyError) when the key is absent. -/
def dlookup : List (String × ℚ) → String → Option ℚ
  | [], _ => none
  | p :: rest, key => if key = p.1 then some p.2 else dlookup rest key

/-- Embedding of Python `d.update(upd)`: entries of `d` whose key occurs
in `upd` are overwritten in place, entries of `upd` whose key does not
occur in `d` are appended in order (CPython dict semantics). -/
def dictUpdate (d upd : List (String × ℚ)) : List (String × ℚ) :=
  d.map (fun p => (p.1, (dlookup upd p.1).getD p.2)) ++
    upd.filter (fun p => (dlookup d p.1).isNone)

/-- Embedding of the inner accumulation loop of
`EmotionModel.validation_end` in single-process mode (neither
`trainer.use_dp` nor `trainer.use_ddp2` is set, so the reshaping branch
inside the loop is skipped): `metric_total` starts at `0` and adds
`output[metric_name]` for each step output.  A step output (the dict
returned by `metrics` in `validation_step`) is embedded as its lookup
function `String → ℚ`, total on its key set. -/
def metric_total (outputs : List (String → ℚ)) (name : String) : ℚ :=
  outputs.foldl (fun acc o => acc + o name) 0

/-- Embedding of the `tqdm_dict` built by the outer loop of
`EmotionModel.validation_end` (single-process mode): iterating over
`outputs[0].keys()` (passed here as `keys`), the entries `tp`, `fp` and
`fn` receive the plain total while every other metric receives the total
divided by `len(outputs)`. -/
def tqdm_dict (keys : List String) (outputs : List (String → ℚ)) :
    List (String × ℚ) :=
  keys.map (fun name =>
    (name,
      if name = "tp" ∨ name = "fp" ∨ name = "fn" then metric_total outputs name
      else metric_total outputs name / (outputs.length : ℚ)))

/-- Modelled from the spec: `f1_score` is imported from
`emotion_transformer.model`, whose notebook (`01_model.ipynb`) is not
under `src/`.  The spec describes it as computing precision, recall and
F1 from accumulated true-positive, false-positive and false-negative
counts; it returns a dict with the keys `precision`, `recall` and
`f1_score` (the keys observed in the notebook training log, where
tp = 3, fp = 37, fn = 5 yields precision 0.075, recall 0.375 and
f1_score 0.125, matching the micro-averaged formulas below). -/
def f1_score (tp fp fn : ℚ) : List (String × ℚ) :=
  let prec := tp / (tp + fp)
  let recl := tp / (tp + fn)
  [("precision", prec), ("recall", recl),
   ("f1_score", 2 * prec * recl / (prec + recl))]

/-- The dictionary returned by `EmotionModel.validation_end`: keys
`progress_bar`, `log` (both bound to the aggregated metrics dict
`tqdm_dict`) and `val_loss` (bound to `tqdm_dict["val_loss"]`). -/
structure ValidationEndResult where
  progress_bar : List (String × ℚ)
  log : List (String × ℚ)
  val_loss : ℚ
deriving DecidableEq

/-- Embedding of `EmotionModel.validation_end` in single-process mode:
builds `tqdm_dict` over `outputs[0].keys()` (passed as `keys`), reads
the accumulated `tp`, `fp`, `fn` counts from it (a missing key is a
KeyError, hence `Option`), merges in `f1_score(tp, fp, fn)` via
`dict.update`, and returns the result dict with `progress_bar`, `log`
and `val_loss` entries. -/
def validation_end (keys : List String) (outputs : List (String → ℚ)) :
    Option ValidationEndResult :=
  let tqdm := tqdm_dict keys outputs
  (dlookup tqdm "tp").bind fun tp =>
  (dlookup tqdm "fp").bind fun fp =>
  (dlookup tqdm "fn").bind fun fn =>
  let full := dictUpdate tqdm (f1_score tp fp fn)
  (dlookup full "val_loss").map fun vl =>
  (⟨full, full, vl⟩ : ValidationEndResult)

/-- Embedding of a parsed Python scalar value as it appears in the
argparse namespace: int, float (embedded as ℚ), string, bool, or
`None`. -/
inductive PyVal where
  | int (n : Int)
  | float (q : ℚ)
  | str (s : String)
  | bool (b : Bool)
  | pynone
deriving DecidableEq

/-- Whether a parsed scalar lies in the closed interval [0, 1]
(numbers only). -/
def PyVal.in_unit_interval : PyVal → Bool
  | .int n => decide (0 ≤ n) && decide (n ≤ 1)
  | .float q => decide (0 ≤ q) && decide (q ≤ 1)
  | _ => false

/-- One argument registered on the `HyperOptArgumentParser`: its
destination name, its default value, its argparse `choices` (enforced
at parse time; `none` when unrestricted) and, for `opt_list` arguments,
the tunable search-space `options` (used only by the hyperparameter
search, never enforced by argparse). -/
structure ArgSpec where
  dest : String
  default : PyVal
  choices : Option (List String)
  options : Option (List PyVal)
deriving DecidableEq

/-- Embedding of `os.path.join(root, rel)` for a relative second
component. -/
def os_path_join (root rel : String) : String := root ++ "/" ++ rel

/-- The arguments added by the parent parser in `get_args`, in
registration order: `--mode`, `--save-path`, `--gpus`,
`--distributed-backend`, `--use_16bit`, `--fast_dev_run`,
`--track_grad_norm`, `--overfit_on_subset`. -/
def mode_arg : ArgSpec :=
  ⟨"mode", .str "default", some ["default", "hparams_search"], none⟩

def save_path_arg (root : String) : ArgSpec :=
  ⟨"save_path", .str (os_path_join root "logs"), none, none⟩

def gpus_arg : ArgSpec := ⟨"gpus", .int 0, none, none⟩

def distributed_backend_arg : ArgSpec :=
  ⟨"distributed_backend", .str "dp", some ["dp", "ddp", "ddp2"], none⟩

def use_16bit_arg : ArgSpec := ⟨"use_16bit", .bool false, none, none⟩

def fast_dev_run_arg : ArgSpec := ⟨"fast_dev_run", .bool false, none, none⟩

def track_grad_norm_arg : ArgSpec := ⟨"track_grad_norm", .bool false, none, none⟩

def overfit_on_subset_arg : ArgSpec := ⟨"overfit_on_subset", .float 0, none, none⟩

def parent_args (root : String) : List ArgSpec :=
  [mode_arg, save_path_arg root, gpus_arg, distributed_backend_arg,
   use_16bit_arg, fast_dev_run_arg, track_grad_norm_arg,
   overfit_on_subset_arg]

/-- The arguments added by `EmotionModel.add_model_specific_args`, in
registration order.  `--lr` is an `opt_range` (sampled from
[1e-5, 3e-5], not a discrete options list), so its `options` field is
`none`. -/
def bs_arg : ArgSpec :=
  ⟨"bs", .int 40, none, some [.int 10, .int 40, .int 80]⟩

def max_seq_len_arg : ArgSpec :=
  ⟨"max_seq_len", .int 10, none, some [.int 5, .int 10, .int 15]⟩

def projection_size_arg : ArgSpec :=
  ⟨"projection_size", .int 100, none, some [.int 50, .int 100, .int 150]⟩

def dropout_arg : ArgSpec :=
  ⟨"dropout", .float (1 / 10), none,
   some [.float (1 / 20), .float (1 / 10), .float (1 / 5)]⟩

def n_layers_arg : ArgSpec :=
  ⟨"n_layers", .int 1, none, some [.int 1, .int 2, .int 3]⟩

def lr_arg : ArgSpec := ⟨"lr", .float (1 / 50000), none, none⟩

def layerwise_decay_arg : ArgSpec :=
  ⟨"layerwise_decay", .float (19 / 20), none,
   some [.float (99 / 100), .float (19 / 20), .float (9 / 10)]⟩

def train_file_arg (root : String) : ArgSpec :=
  ⟨"train_file", .str (os_path_join root "data/clean_train.txt"), none, none⟩

def val_file_arg (root : String) : ArgSpec :=
  ⟨"val_file", .str (os_path_join root "data/clean_val.txt"), none, none⟩

def test_file_arg (root : String) : ArgSpec :=
  ⟨"test_file", .str (os_path_join root "data/clean_test.txt"), none, none⟩

def epochs_arg : ArgSpec := ⟨"epochs", .int 10, none, none⟩

def seed_arg : ArgSpec := ⟨"seed", .pynone, none, none⟩

def model_specific_args (root : String) : List ArgSpec :=
  [bs_arg, max_seq_len_arg, projection_size_arg, dropout_arg, n_layers_arg,
   lr_arg, layerwise_decay_arg, train_file_arg root, val_file_arg root,
   test_file_arg root, epochs_arg, seed_arg]

/-- Embedding of `get_args(EmotionModel)`: the parent parser arguments
followed by the model-specific arguments
(`EmotionModel.add_model_specific_args` builds a new parser with
`parents=[parent_parser]`), with `root` standing for `os.getcwd()`. -/
def get_args (root : String) : List ArgSpec :=
  parent_args root ++ model_specific_args root

/-- Embedding of `get_args(EmotionModel).parse_args(args=[])`: every
registered argument takes its default value; `HyperOptArgumentParser`
additionally adds its internal `hpc_exp_number` entry (value `None`),
as observed via `vars(hparams)` in the notebook. -/
def parse_no_overrides (root : String) : List (String × PyVal) :=
  (get_args root).map (fun a => (a.dest, a.default)) ++
    [("hpc_exp_number", .pynone)]

/-- The fields the claimed hyperparameter configuration record consists
of. -/
def hyperparameter_record_fields : List String :=
  ["bs", "max_seq_len", "projection_size", "dropout", "n_layers", "lr",
   "layerwise_decay", "train_file", "val_file", "test_file", "epochs",
   "seed"]

/-- Embedding of the argparse handling of an explicit
`--dropout <value>` override: the argument is registered with
`type=float` and no `choices` and no range validation, so any float
value parses and is stored; with no override the default 0.1 is used.
The `opt_list` options form the tunable search space only. -/
def parse_dropout_value (cli_override : Option ℚ) : ℚ :=
  cli_override.getD (1 / 10)

/-- The parsed hyperparameter namespace `hparams` as a record, with the
fields registered by the parent parser of `get_args` followed by those
of `EmotionModel.add_model_specific_args`. -/
structure Hparams where
  mode : String
  save_path : String
  gpus : Nat
  distributed_backend : String
  use_16bit : Bool
  fast_dev_run : Bool
  track_grad_norm : Bool
  overfit_on_subset : ℚ
  bs : Int
  max_seq_len : Int
  projection_size : Int
  dropout : ℚ
  n_layers : Int
  lr : ℚ
  layerwise_decay : ℚ
  train_file : String
  val_file : String
  test_file : String
  epochs : Int
  seed : Option Int
deriving DecidableEq

/-- The namespace obtained from `parse_args([])`, every field at its
default (`root` stands for `os.getcwd()` at parser-construction
time). -/
def hparams_defaults (root : String) : Hparams :=
  ⟨"default", os_path_join root "logs", 0, "dp", false, false, false, 0,
   40, 10, 100, 1 / 10, 1, 1 / 50000, 19 / 20,
   os_path_join root "data/clean_train.txt",
   os_path_join root "data/clean_val.txt",
   os_path_join root "data/clean_test.txt", 10, none⟩

/-- The default configuration with `--seed s` supplied on the command
line. -/
def hparams_seeded (root : String) (s : Int) : Hparams :=
  ⟨"default", os_path_join root "logs", 0, "dp", false, false, false, 0,
   40, 10, 100, 1 / 10, 1, 1 / 50000, 19 / 20,
   os_path_join root "data/clean_train.txt",
   os_path_join root "data/clean_val.txt",
   os_path_join root "data/clean_test.txt", 10, some s⟩

/-- The label mapping assigned in `EmotionModel.__init__`:
`self.emo_dict = {'others': 0, 'sad': 1, 'angry': 2, 'happy': 3}`. -/
def emo_dict : List (String × Nat) :=
  [("others", 0), ("sad", 1), ("angry", 2), ("happy", 3)]

/-- The arguments `EmotionModel.__init__` passes to
`context_classifier_model` (the callee itself lives in the model
notebook, not under `src/`; recorded here is the call). -/
structure ContextClassifierInit where
  projection_size : Int
  n_layers : Int
  emo_dict : List (String × Nat)
  dropout : ℚ
deriving DecidableEq

def init_context_classifier (h : Hparams) : ContextClassifierInit :=
  ⟨h.projection_size, h.n_layers, emo_dict, h.dropout⟩

/-- The arguments a dataloader method of `EmotionModel` passes to
`dataloader` (the callee lives in the dataloader notebook, not under
`src/`; recorded here is the call). -/
structure DataloaderCall where
  file : String
  max_seq_len : Int
  bs : Int
  emo_dict : List (String × Nat)
  use_ddp : Bool
deriving DecidableEq

/-- Embedding of `EmotionModel.train_dataloader`:
`dataloader(self.hparams.train_file, self.hparams.max_seq_len,
self.hparams.bs, self.emo_dict, use_ddp=self.use_ddp)`. -/
def train_dataloader (h : Hparams) (use_ddp : Bool) : DataloaderCall :=
  ⟨h.train_file, h.max_seq_len, h.bs, emo_dict, use_ddp⟩

/-- Embedding of `EmotionModel.val_dataloader`. -/
def val_dataloader (h : Hparams) (use_ddp : Bool) : DataloaderCall :=
  ⟨h.val_file, h.max_seq_len, h.bs, emo_dict, use_ddp⟩

/-- Embedding of `EmotionModel.test_dataloader`. -/
def test_dataloader (h : Hparams) (use_ddp : Bool) : DataloaderCall :=
  ⟨h.test_file, h.max_seq_len, h.bs, emo_dict, use_ddp⟩

/-- Tensors are abstracted as lists of rationals; their internal shape
plays no role in the claims. -/
def Tensor : Type := List ℚ

/-- The two sub-models stored by `EmotionModel.__init__`
(`self.sentence_embeds_model` and `self.context_classifier_model`).
Their bodies live in the model notebook, which is not under `src/`, so
they are held abstract as the functions the instance carries:
the embedding model maps `input_ids` and `attention_mask` to sentence
embeddings, the classifier maps sentence embeddings and optional labels
to its output (a loss/logits pair). -/
structure SubModels where
  sentence_embeds_model : Tensor → Tensor → Tensor
  context_classifier_model : Tensor → Option Tensor → Tensor × Tensor

/-- Embedding of `EmotionModel.forward`: compute
`sentence_embeds = self.sentence_embeds_model(input_ids=...,
attention_mask=...)` and return
`self.context_classifier_model(sentence_embeds=..., labels=labels)`. -/
def forward (m : SubModels) (input_ids attention_mask : Tensor)
    (labels : Option Tensor) : Tensor × Tensor :=
  let sentence_embeds := m.sentence_embeds_model input_ids attention_mask
  m.context_classifier_model sentence_embeds labels

/-- The Python expression `scores_dict.values` (note: without a call):
the attribute access yields the bound dict method object, not the list
of values; `.called` is what `scores_dict.values()` would have
yielded. -/
inductive ValuesAttr where
  | boundMethod
  | called (vs : List ℚ)

def values_no_call (_scores_dict : List (String × ℚ)) : ValuesAttr :=
  .boundMethod

/-- Iterating (as a list comprehension does) over the result of a
`.values` attribute access: a bound builtin method object is not
iterable, so CPython raises TypeError; values from an actual call
iterate normally. -/
def iterValues : ValuesAttr → Except String (List ℚ)
  | .boundMethod =>
      .error "TypeError: builtin_function_or_method object is not iterable"
  | .called vs => .ok vs

/-- Embedding of `EmotionModel.validation_step` after
`scores_dict = metrics(loss, logits, labels)` has been computed (the
`forward`/`metrics` calls come from modules not under `src/` and are
passed in as the finished `scores_dict`): when `trainer.use_dp` or
`trainer.use_ddp2` is set, the reshaping branch iterates over
`scores_dict.values` — the bound method itself, an uncalled attribute —
which raises TypeError; otherwise the scores dict is returned
unchanged.  (The `zip(scores_dict.keys, scores)` rebuild in the branch
has the same uncalled-method bug but is unreachable.) -/
def validation_step (use_dp use_ddp2 : Bool)
    (scores_dict : List (String × ℚ)) :
    Except String (List (String × ℚ)) :=
  if use_dp || use_ddp2 then
    match iterValues (values_no_call scores_dict) with
    | .error e => .error e
    | .ok scores => .ok ((scores_dict.map Prod.fst).zip scores)
  else
    .ok scores_dict

/-- The keyword arguments `main` passes to
`pl.callbacks.ModelCheckpoint`. -/
structure ModelCheckpointArgs where
  filepath : String
  save_best_only : Bool
  verbose : Bool
  monitor : String
  mode : String
  prefix_ : String
deriving DecidableEq

/-- Embedding of the `ModelCheckpoint` construction in `main`:
`filepath=os.path.join(hparams.save_path, 'model_checkpoints'),
save_best_only=True, verbose=True, monitor='f1_score', mode='max',
prefix=''`. -/
def main_checkpoint (h : Hparams) : ModelCheckpointArgs :=
  ⟨os_path_join h.save_path "model_checkpoints", true, true, "f1_score",
   "max", ""⟩

/-- The global names defined in the exported `emotion_transformer.core`
module: the names imported by its single import cell plus the objects
the module itself defines.  `random` is not among them. -/
def core_module_names : List String :=
  ["logging", "os", "torch", "pl", "HyperOptArgumentParser", "dataloader",
   "sentence_embeds_model", "context_classifier_model", "metrics",
   "f1_score", "EmotionModel", "get_args", "main"]

/-- The seeding side effects the seed branch of `main` attempts. -/
inductive SeedEffect where
  | seedPython (s : Int)
  | seedTorch (s : Int)
  | cudnnDeterministic
deriving DecidableEq

/-- Embedding of the seed branch of `main`: when `hparams.seed` is not
`None` it executes `random.seed(hparams.seed)`,
`torch.manual_seed(hparams.seed)` and
`torch.backends.cudnn.deterministic = True`.  The first statement looks
up the global name `random`; a lookup of a name absent from the module
namespace raises NameError before any seeding happens. -/
def main_seed_block (h : Hparams) : Except String (List SeedEffect) :=
  match h.seed with
  | none => .ok []
  | some s =>
    if "random" ∈ core_module_names then
      .ok [.seedPython s, .seedTorch s, .cudnnDeterministic]
    else
      .error "NameError: name random is not defined"

/-- The run the `__main__` block of `main.py` dispatches to. -/
inductive RunMode where
  | singleRun
  | searchCpu (nbTrials nbWorkers : Nat)
  | searchGpu (nbTrials : Nat) (gpus : List Nat)
deriving DecidableEq

/-- Embedding of the dispatch in `main.py`: mode `default` calls
`main(hparams)` once; mode `hparams_search` calls
`hparams.optimize_parallel_cpu(main, nb_trials=20, nb_workers=1)` when
`hparams.gpus == 0` and
`hparams.optimize_parallel_gpu(main, nb_trials=20,
gpus=list(range(hparams.gpus)))` otherwise; any other mode (excluded by
the parser `choices` anyway) falls through the `if`/`elif` chain. -/
def mainDispatch (mode : String) (gpus : Nat) : Option RunMode :=
  if mode = "default" then some .singleRun
  else if mode = "hparams_search" then
    if gpus = 0 then some (.searchCpu 20 1)
    else some (.searchGpu 20 (List.range gpus))
  else none

/-- The number of training runs a dispatched mode performs: one for a
default run, `nb_trials` for a hyperparameter search. -/
def RunMode.numTrials : RunMode → Nat
  | .singleRun => 1
  | .searchCpu n _ => n
  | .searchGpu n _ => n

/-- A concrete validation-step output used to instantiate the
aggregation theorem (values from the notebook development run). -/
def sampleStep : String → ℚ := fun name =>
  if name = "tp" then 3
  else if name = "fp" then 37
  else if name = "fn" then 5
  else if name = "val_loss" then 2
  else 3 / 40

/-! ## Helper lemmas about the dict embedding -/

theorem dlookup_map_self (g : String → ℚ) (keys : List String) (k : String)
    (hk : k ∈ keys) :
    dlookup (keys.map (fun n => (n, g n))) k = some (g k) := by
  induction keys with
  | nil => cases hk
  | cons a t ih =>
    rcases List.mem_cons.mp hk with h | h
    · subst h; simp [dlookup]
    · by_cases hka : k = a
      · subst hka; simp [dlookup]
      · simp [dlookup, hka, ih h]

theorem dlookup_append_some {a : List (String × ℚ)} (b : List (String × ℚ))
    {k : String} {v : ℚ} (h : dlookup a k = some v) :
    dlookup (a ++ b) k = some v := by
  induction a with
  | nil => simp [dlookup] at h
  | cons p t ih =>
    by_cases hk : k = p.1
    · simp [dlookup, hk] at h ⊢; exact h
    · simp [dlookup, hk] at h ⊢; exact ih h

theorem dlookup_append_none {a : List (String × ℚ)} (b : List (String × ℚ))
    {k : String} (h : dlookup a k = none) :
    dlookup (a ++ b) k = dlookup b k := by
  induction a with
  | nil => simp
  | cons p t ih =>
    by_cases hk : k = p.1
    · simp [dlookup, hk] at h
    · simp [dlookup, hk] at h ⊢; exact ih h

theorem dlookup_map_override_some (upd : List (String × ℚ))
    {d : List (String × ℚ)} {k : String} {v : ℚ}
    (h : dlookup d k = some v) :
    dlookup (d.map (fun p => (p.1, (dlookup upd p.1).getD p.2))) k =
      some ((dlookup upd k).getD v) := by
  induction d with
  | nil => simp [dlookup] at h
  | cons p t ih =>
    by_cases hk : k = p.1
    · simp [dlookup, hk] at h ⊢; rw [h]
    · simp [dlookup, hk] at h ⊢; exact ih h

theorem dlookup_map_override_none (upd : List (String × ℚ))
    {d : List (String × ℚ)} {k : String}
    (h : dlookup d k = none) :
    dlookup (d.map (fun p => (p.1, (dlookup upd p.1).getD p.2))) k =
      none := by
  induction d with
  | nil => simp [dlookup]
  | cons p t ih =>
    by_cases hk : k = p.1
    · simp [dlookup, hk] at h
    · simp [dlookup, hk] at h ⊢; exact ih h

theorem dlookup_filter_of_none {d : List (String × ℚ)} {k : String}
    (hd : dlookup d k = none) (upd : List (String × ℚ)) :
    dlookup (upd.filter (fun p => (dlookup d p.1).isNone)) k =
      dlookup upd k := by
  induction upd with
  | nil => simp
  | cons p t ih =>
    by_cases hk : k = p.1
    · have hdp : (dlookup d p.1).isNone = true := by rw [← hk, hd]; rfl
      simp [List.filter_cons, hdp, dlookup, hk]
    · cases hb : (dlookup d p.1).isNone
      · simp [List.filter_cons, hb, dlookup, hk, ih]
      · simp [List.filter_cons, hb, dlookup, hk, ih]

theorem dlookup_dictUpdate_of_upd (d : List (String × ℚ))
    {upd : List (String × ℚ)} {k : String} {v : ℚ}
    (h : dlookup upd k = some v) :
    dlookup (dictUpdate d upd) k = some v := by
  unfold dictUpdate
  cases hd : dlookup d k with
  | some w =>
    have := dlookup_map_override_some upd hd
    rw [h] at this
    exact dlookup_append_some _ this
  | none =>
    rw [dlookup_append_none _ (dlookup_map_override_none upd hd),
        dlookup_filter_of_none hd, h]

theorem dlookup_dictUpdate_of_none (d : List (String × ℚ))
    {upd : List (String × ℚ)} {k : String}
    (h : dlookup upd k = none) :
    dlookup (dictUpdate d upd) k = dlookup d k := by
  unfold dictUpdate
  cases hd : dlookup d k with
  | some w =>
    have := dlookup_map_override_some upd hd
    rw [h] at this
    exact dlookup_append_some _ this
  | none =>
    rw [dlookup_append_none _ (dlookup_map_override_none upd hd),
        dlookup_filter_of_none hd, h]

theorem metric_total_eq_sum (outputs : List (String → ℚ)) (name : String) :
    metric_total outputs name = (outputs.map (fun o => o name)).sum := by
  have h : ∀ (l : List (String → ℚ)) (a : ℚ),
      l.foldl (fun acc o => acc + o name) a =
        a + (l.map (fun o => o name)).sum := by
    intro l
    induction l with
    | nil => intro a; simp
    | cons o t ih => intro a; simp [ih]; ring
  simpa [metric_total] using h outputs 0

theorem dlookup_tqdm (keys : List String) (outputs : List (String → ℚ))
    (k : String) (hk : k ∈ keys) :
    dlookup (tqdm_dict keys outputs) k =
      some (if k = "tp" ∨ k = "fp" ∨ k = "fn" then metric_total outputs k
            else metric_total outputs k / (outputs.length : ℚ)) := by
  unfold tqdm_dict
  exact dlookup_map_self _ keys k hk

theorem dlookup_f1_tp (a b c : ℚ) : dlookup (f1_score a b c) "tp" = none := by
  simp [f1_score, dlookup]

theorem dlookup_f1_fp (a b c : ℚ) : dlookup (f1_score a b c) "fp" = none := by
  simp [f1_score, dlookup]

theorem dlookup_f1_fn (a b c : ℚ) : dlookup (f1_score a b c) "fn" = none := by
  simp [f1_score, dlookup]

theorem dlookup_f1_other (a b c : ℚ) {name : String}
    (h4 : name ≠ "precision") (h5 : name ≠ "recall")
    (h6 : name ≠ "f1_score") :
    dlookup (f1_score a b c) name = none := by
  simp [f1_score, dlookup, h4, h5, h6]

/-- C1: for every non-empty list of validation-step outputs processed
in single-process mode, `EmotionModel.validation_end` returns a result
whose aggregated metrics dictionary (bound to the `log` and
`progress_bar` entries) has `tp`, `fp` and `fn` equal to the sums of
the per-step values, every other per-step metric (such as `val_loss`
and `val_acc`) equal to the arithmetic mean of its per-step values
(total divided by the number of outputs), and `precision`, `recall` and
`f1_score` entries equal to the corresponding entries of `f1_score`
applied to the summed `tp`, `fp` and `fn` counts.  `keys` stands for
`outputs[0].keys()`, which must contain the counts and `val_loss` for
the code not to raise KeyError. -/
theorem validation_end_single_process
    (keys : List String) (outputs : List (String → ℚ))
    (_hne : outputs ≠ [])
    (htp : "tp" ∈ keys) (hfp : "fp" ∈ keys) (hfn : "fn" ∈ keys)
    (hvl : "val_loss" ∈ keys) :
    ∃ r, validation_end keys outputs = some r ∧
      dlookup r.log "tp" = some ((outputs.map (fun o => o "tp")).sum) ∧
      dlookup r.log "fp" = some ((outputs.map (fun o => o "fp")).sum) ∧
      dlookup r.log "fn" = some ((outputs.map (fun o => o "fn")).sum) ∧
      (∀ name, name ∈ keys →
        name ∉ (["tp", "fp", "fn", "precision", "recall", "f1_score"] :
          List String) →
        dlookup r.log name =
          some ((outputs.map (fun o => o name)).sum /
            (outputs.length : ℚ))) ∧
      dlookup r.log "precision" =
        dlookup (f1_score ((outputs.map (fun o => o "tp")).sum)
          ((outputs.map (fun o => o "fp")).sum)
          ((outputs.map (fun o => o "fn")).sum)) "precision" ∧
      dlookup r.log "recall" =
        dlookup (f1_score ((outputs.map (fun o => o "tp")).sum)
          ((outputs.map (fun o => o "fp")).sum)
          ((outputs.map (fun o => o "fn")).sum)) "recall" ∧
      dlookup r.log "f1_score" =
        dlookup (f1_score ((outputs.map (fun o => o "tp")).sum)
          ((outputs.map (fun o => o "fp")).sum)
          ((outputs.map (fun o => o "fn")).sum)) "f1_score" := by
  have htp2 : dlookup (tqdm_dict keys outputs) "tp" =
      some ((outputs.map (fun o => o "tp")).sum) := by
    rw [dlookup_tqdm keys outputs "tp" htp, if_pos (by decide),
      metric_total_eq_sum]
  have hfp2 : dlookup (tqdm_dict keys outputs) "fp" =
      some ((outputs.map (fun o => o "fp")).sum) := by
    rw [dlookup_tqdm keys outputs "fp" hfp, if_pos (by decide),
      metric_total_eq_sum]
  have hfn2 : dlookup (tqdm_dict keys outputs) "fn" =
      some ((outputs.map (fun o => o "fn")).sum) := by
    rw [dlookup_tqdm keys outputs "fn" hfn, if_pos (by decide),
      metric_total_eq_sum]
  have hvl2 : dlookup (tqdm_dict keys outputs) "val_loss" =
      some ((outputs.map (fun o => o "val_loss")).sum /
        (outputs.length : ℚ)) := by
    rw [dlookup_tqdm keys outputs "val_loss" hvl, if_neg (by decide),
      metric_total_eq_sum]
  have hfull_vl :
      dlookup (dictUpdate (tqdm_dict keys outputs)
        (f1_score ((outputs.map (fun o => o "tp")).sum)
          ((outputs.map (fun o => o "fp")).sum)
          ((outputs.map (fun o => o "fn")).sum))) "val_loss" =
      some ((outputs.map (fun o => o "val_loss")).sum /
        (outputs.length : ℚ)) := by
    rw [dlookup_dictUpdate_of_none _
      (dlookup_f1_other _ _ _ (by decide) (by decide) (by decide)), hvl2]
  refine ⟨⟨dictUpdate (tqdm_dict keys outputs)
      (f1_score ((outputs.map (fun o => o "tp")).sum)
        ((outputs.map (fun o => o "fp")).sum)
        ((outputs.map (fun o => o "fn")).sum)),
    dictUpdate (tqdm_dict keys outputs)
      (f1_score ((outputs.map (fun o => o "tp")).sum)
        ((outputs.map (fun o => o "fp")).sum)
        ((outputs.map (fun o => o "fn")).sum)),
    (outputs.map (fun o => o "val_loss")).sum / (outputs.length : ℚ)⟩,
    ?_, ?_, ?_, ?_, ?_, ?_, ?_, ?_⟩
  · simp [validation_end, htp2, hfp2, hfn2, hfull_vl]
  · exact (dlookup_dictUpdate_of_none _ (dlookup_f1_tp _ _ _)).trans htp2
  · exact (dlookup_dictUpdate_of_none _ (dlookup_f1_fp _ _ _)).trans hfp2
  · exact (dlookup_dictUpdate_of_none _ (dlookup_f1_fn _ _ _)).trans hfn2
  · intro name hkname hnot6
    simp only [List.mem_cons, List.not_mem_nil, or_false, not_or] at hnot6
    obtain ⟨h1, h2, h3, h4, h5, h6⟩ := hnot6
    rw [dlookup_dictUpdate_of_none _ (dlookup_f1_other _ _ _ h4 h5 h6),
      dlookup_tqdm keys outputs name hkname,
      if_neg (by simp [h1, h2, h3]), metric_total_eq_sum]
  · have hp : dlookup (f1_score ((outputs.map (fun o => o "tp")).sum)
        ((outputs.map (fun o => o "fp")).sum)
        ((outputs.map (fun o => o "fn")).sum)) "precision" =
        some (((outputs.map (fun o => o "tp")).sum) /
          (((outputs.map (fun o => o "tp")).sum) +
            ((outputs.map (fun o => o "fp")).sum))) := by
      simp [f1_score, dlookup]
    rw [dlookup_dictUpdate_of_upd _ hp, hp]
  · have hr : dlookup (f1_score ((outputs.map (fun o => o "tp")).sum)
        ((outputs.map (fun o => o "fp")).sum)
        ((outputs.map (fun o => o "fn")).sum)) "recall" =
        some (((outputs.map (fun o => o "tp")).sum) /
          (((outputs.map (fun o => o "tp")).sum) +
            ((outputs.map (fun o => o "fn")).sum))) := by
      simp [f1_score, dlookup]
    rw [dlookup_dictUpdate_of_upd _ hr, hr]
  · have hf : dlookup (f1_score ((outputs.map (fun o => o "tp")).sum)
        ((outputs.map (fun o => o "fp")).sum)
        ((outputs.map (fun o => o "fn")).sum)) "f1_score" =
        some (2 * (((outputs.map (fun o => o "tp")).sum) /
            (((outputs.map (fun o => o "tp")).sum) +
              ((outputs.map (fun o => o "fp")).sum))) *
          (((outputs.map (fun o => o "tp")).sum) /
            (((outputs.map (fun o => o "tp")).sum) +
              ((outputs.map (fun o => o "fn")).sum))) /
          ((((outputs.map (fun o => o "tp")).sum) /
            (((outputs.map (fun o => o "tp")).sum) +
              ((outputs.map (fun o => o "fp")).sum))) +
            (((outputs.map (fun o => o "tp")).sum) /
              (((outputs.map (fun o => o "tp")).sum) +
                ((outputs.map (fun o => o "fn")).sum))))) := by
      simp [f1_score, dlookup]
    rw [dlookup_dictUpdate_of_upd _ hf, hf]

/-- Witness for C1: the aggregation theorem instantiated at the key set
and step values of the notebook development run (one step output with
tp = 3, fp = 37, fn = 5). -/
theorem validation_end_single_process_witness :
    ∃ r, validation_end ["val_loss", "val_acc", "tp", "fp", "fn"]
        [sampleStep] = some r ∧
      dlookup r.log "tp" =
        some (([sampleStep].map (fun o => o "tp")).sum) ∧
      dlookup r.log "fp" =
        some (([sampleStep].map (fun o => o "fp")).sum) ∧
      dlookup r.log "fn" =
        some (([sampleStep].map (fun o => o "fn")).sum) ∧
      (∀ name, name ∈ ["val_loss", "val_acc", "tp", "fp", "fn"] →
        name ∉ (["tp", "fp", "fn", "precision", "recall", "f1_score"] :
          List String) →
        dlookup r.log name =
          some (([sampleStep].map (fun o => o name)).sum /
            (([sampleStep] : List (String → ℚ)).length : ℚ))) ∧
      dlookup r.log "precision" =
        dlookup (f1_score (([sampleStep].map (fun o => o "tp")).sum)
          (([sampleStep].map (fun o => o "fp")).sum)
          (([sampleStep].map (fun o => o "fn")).sum)) "precision" ∧
      dlookup r.log "recall" =
        dlookup (f1_score (([sampleStep].map (fun o => o "tp")).sum)
          (([sampleStep].map (fun o => o "fp")).sum)
          (([sampleStep].map (fun o => o "fn")).sum)) "recall" ∧
      dlookup r.log "f1_score" =
        dlookup (f1_score (([sampleStep].map (fun o => o "tp")).sum)
          (([sampleStep].map (fun o => o "fp")).sum)
          (([sampleStep].map (fun o => o "fn")).sum)) "f1_score" :=
  validation_end_single_process ["val_loss", "val_acc", "tp", "fp", "fn"]
    [sampleStep] (by simp) (by decide) (by decide) (by decide) (by decide)


/-- C2 (evaluation at the failing input): on the default configuration
with `--seed 42`, the seed branch of `main` raises
`NameError: name random is not defined` — the exported core module
never imports `random` — so no RNG is seeded and cuDNN determinism is
never enabled. -/
theorem main_seed_block_name_error :
    main_seed_block (hparams_seeded "/repo" 42) =
      .error "NameError: name random is not defined" := rfl

/-- C3: the single CLI entry point accepts `--gpus` (default 0),
`--use_16bit` (flag, default false), `--distributed-backend` (choices
dp/ddp/ddp2, default dp) and `--mode` (choices default/hparams_search,
default default); mode `default` dispatches to exactly one training run
via `main`, and mode `hparams_search` dispatches to a 20-trial search
parallelized over CPU workers when gpus = 0 and over GPUs 0..gpus-1
otherwise. -/
theorem cli_surface (root : String) :
    gpus_arg ∈ get_args root ∧ gpus_arg.default = PyVal.int 0 ∧
    use_16bit_arg ∈ get_args root ∧
    use_16bit_arg.default = PyVal.bool false ∧
    distributed_backend_arg ∈ get_args root ∧
    distributed_backend_arg.default = PyVal.str "dp" ∧
    distributed_backend_arg.choices = some ["dp", "ddp", "ddp2"] ∧
    mode_arg ∈ get_args root ∧ mode_arg.default = PyVal.str "default" ∧
    mode_arg.choices = some ["default", "hparams_search"] ∧
    (∀ g, mainDispatch "default" g = some RunMode.singleRun) ∧
    mainDispatch "hparams_search" 0 = some (RunMode.searchCpu 20 1) ∧
    (∀ g : Nat, mainDispatch "hparams_search" (g + 1) =
      some (RunMode.searchGpu 20 (List.range (g + 1)))) := by
  refine ⟨?_, rfl, ?_, rfl, ?_, rfl, rfl, ?_, rfl, rfl,
    fun g => rfl, rfl, fun g => rfl⟩
  · simp [get_args, parent_args]
  · simp [get_args, parent_args]
  · simp [get_args, parent_args]
  · simp [get_args, parent_args]

/-- C4: the hyperparameter search dispatches to 20 trials (multiple
configuration combinations), and within every training run the
checkpoint callback is constructed with `save_best_only=True`,
monitoring the `f1_score` metric in `max` mode, so only the best model
by validation F1 is kept. -/
theorem checkpoint_best_f1 (h : Hparams) (g : Nat) :
    (main_checkpoint h).save_best_only = true ∧
    (main_checkpoint h).monitor = "f1_score" ∧
    (main_checkpoint h).mode = "max" ∧
    ∃ r, mainDispatch "hparams_search" g = some r ∧
      r.numTrials = 20 ∧ 1 < r.numTrials := by
  refine ⟨rfl, rfl, rfl, ?_⟩
  rcases g with _ | g
  · exact ⟨RunMode.searchCpu 20 1, rfl, rfl,
      by simp [RunMode.numTrials]⟩
  · exact ⟨RunMode.searchGpu 20 (List.range (g + 1)), rfl, rfl,
      by simp [RunMode.numTrials]⟩

/-- C5: `EmotionModel.forward` is the composition of the two
sub-models: it returns `context_classifier_model` applied (together
with the labels) to the sentence embeddings that
`sentence_embeds_model` produces from `input_ids` and
`attention_mask`. -/
theorem forward_is_composition (m : SubModels)
    (input_ids attention_mask : Tensor) (labels : Option Tensor) :
    forward m input_ids attention_mask labels =
      m.context_classifier_model
        (m.sentence_embeds_model input_ids attention_mask) labels := rfl

/-- C6: `emo_dict` is a bijection from the four emotion names
{others, sad, angry, happy} onto the indices {0, 1, 2, 3}, and the very
same mapping is the one passed to `context_classifier_model` and to all
three dataloaders. -/
theorem emo_dict_bijection_and_shared (h : Hparams) (ddp : Bool) :
    emo_dict.map Prod.fst = ["others", "sad", "angry", "happy"] ∧
    emo_dict.map Prod.snd = [0, 1, 2, 3] ∧
    (emo_dict.map Prod.fst).Nodup ∧
    (emo_dict.map Prod.snd).Nodup ∧
    (init_context_classifier h).emo_dict = emo_dict ∧
    (train_dataloader h ddp).emo_dict = emo_dict ∧
    (val_dataloader h ddp).emo_dict = emo_dict ∧
    (test_dataloader h ddp).emo_dict = emo_dict :=
  ⟨rfl, rfl, by decide, by decide, rfl, rfl, rfl, rfl⟩

/-- C7 (counterexample): the namespace produced by parsing the CLI with
no overrides does not consist exactly of the claimed hyperparameter
fields — it also contains the trainer-level field `mode` (and
`save_path`, `gpus`, …). -/
theorem parse_fields_not_exactly_hyperparameters :
    ∃ f, f ∈ (parse_no_overrides "/repo").map Prod.fst ∧
      f ∉ hyperparameter_record_fields :=
  ⟨"mode", by decide, by decide⟩

/-- C7 (amended): the model-specific arguments registered by
`EmotionModel.add_model_specific_args` are exactly the claimed twelve
hyperparameter fields with the claimed defaults (bs 40, max_seq_len 10,
projection_size 100, dropout 0.1, n_layers 1, lr 2e-5, layerwise_decay
0.95, the three data file paths under the root directory, epochs 10,
seed None); the full CLI parse additionally contains the trainer-level
flags of the parent parser. -/
theorem model_specific_defaults (root : String) :
    (model_specific_args root).map ArgSpec.dest =
      hyperparameter_record_fields ∧
    (model_specific_args root).map (fun a => (a.dest, a.default)) =
      [("bs", PyVal.int 40), ("max_seq_len", PyVal.int 10),
       ("projection_size", PyVal.int 100),
       ("dropout", PyVal.float (1 / 10)), ("n_layers", PyVal.int 1),
       ("lr", PyVal.float (1 / 50000)),
       ("layerwise_decay", PyVal.float (19 / 20)),
       ("train_file", PyVal.str (os_path_join root "data/clean_train.txt")),
       ("val_file", PyVal.str (os_path_join root "data/clean_val.txt")),
       ("test_file", PyVal.str (os_path_join root "data/clean_test.txt")),
       ("epochs", PyVal.int 10), ("seed", PyVal.pynone)] :=
  ⟨rfl, rfl⟩

/-- C8 (counterexample): it is not the case that every configuration
accepted by the parser has its dropout in [0, 1]: `--dropout` is
registered with `type=float` and no range validation, so the override
`--dropout 2` parses and the program runs with dropout 2. -/
theorem dropout_parser_accepts_out_of_range :
    ∃ o : Option ℚ, parse_dropout_value o = 2 ∧
      ¬(0 ≤ parse_dropout_value o ∧ parse_dropout_value o ≤ 1) :=
  ⟨some 2, by norm_num [parse_dropout_value]⟩

/-- C8 (amended): the dropout default (0.1) and every value of its
tunable search space (0.05, 0.1, 0.2) lie in [0, 1]; the parser itself
enforces no range constraint on `--dropout`. -/
theorem dropout_default_and_search_space_in_unit_interval (root : String) :
    dropout_arg ∈ model_specific_args root ∧
    dropout_arg.default.in_unit_interval = true ∧
    (dropout_arg.options.getD []).all PyVal.in_unit_interval = true := by
  refine ⟨by simp [model_specific_args], ?_, ?_⟩
  · simp only [dropout_arg, PyVal.in_unit_interval, Bool.and_eq_true,
      decide_eq_true_eq]
    norm_num
  · simp only [dropout_arg, Option.getD_some, List.all_cons, List.all_nil,
      PyVal.in_unit_interval, Bool.and_eq_true, Bool.and_true,
      decide_eq_true_eq]
    norm_num

/-- C9: `EmotionModel.validation_step` returns the score dictionary
normally exactly when neither `trainer.use_dp` nor `trainer.use_ddp2`
is set; whenever one of them is set, the reshaping branch iterates over
`scores_dict.values` — the bound dict method itself rather than the
result of calling it — so the step raises TypeError instead of
returning scores. -/
theorem validation_step_dp_raises (scores_dict : List (String × ℚ)) :
    validation_step false false scores_dict = .ok scores_dict ∧
    validation_step true false scores_dict =
      .error "TypeError: builtin_function_or_method object is not iterable" ∧
    validation_step false true scores_dict =
      .error "TypeError: builtin_function_or_method object is not iterable" ∧
    validation_step true true scores_dict =
      .error "TypeError: builtin_function_or_method object is not iterable" :=
  ⟨rfl, rfl, rfl, rfl⟩

/-- C10: the train, validation and test dataloaders are constructed
with identical `max_seq_len`, batch size, label mapping and `use_ddp`
flag, and differ only in the input file path (`train_file`, `val_file`
and `test_file` respectively). -/
theorem dataloaders_differ_only_in_file (h : Hparams) (ddp : Bool) :
    (train_dataloader h ddp).file = h.train_file ∧
    (val_dataloader h ddp).file = h.val_file ∧
    (test_dataloader h ddp).file = h.test_file ∧
    (train_dataloader h ddp).max_seq_len =
      (val_dataloader h ddp).max_seq_len ∧
    (val_dataloader h ddp).max_seq_len =
      (test_dataloader h ddp).max_seq_len ∧
    (train_dataloader h ddp).bs = (val_dataloader h ddp).bs ∧
    (val_dataloader h ddp).bs = (test_dataloader h ddp).bs ∧
    (train_dataloader h ddp).emo_dict = (val_dataloader h ddp).emo_dict ∧
    (val_dataloader h ddp).emo_dict = (test_dataloader h ddp).emo_dict ∧
    (train_dataloader h ddp).use_ddp = (val_dataloader h ddp).use_ddp ∧
    (val_dataloader h ddp).use_ddp = (test_dataloader h ddp).use_ddp :=
  ⟨rfl, rfl, rfl, rfl, rfl, rfl, rfl, rfl, rfl, rfl, rfl⟩
